import Mathlib

/-!
Verification of the conversation-orchestration and retrieval-tool engine of
the zusbot repository against its natural-language specification.

The Python sources are embedded shallowly:

* `app/features/sessions/session_manager.py` — the in-memory session store.
  The Python `dict` keyed by session id strings is modelled as an
  insertion-ordered association list `List (String × SessionData M)`;
  `datetime` values are modelled as integers (a monotone wall clock),
  `timedelta(hours=h)` as the integer `h` on the same scale.
* `app/features/chat/chat_service/agent_tools.py` — the tool registry:
  the `log_tool_call` decorator, the individual tools, and the
  `query_outlets_table` text-to-SQL tool.  Python exceptions are modelled
  with `Except String`; external collaborators (the translator model, the
  storage engine, the embedding backend) are opaque function parameters.
* `app/database.py` — `search_similar_products` (dimension validation) and
  `execute_query` (unconditional forwarding of SQL text to the engine).
  Statements handed to the storage engine are collected in an explicit
  list so that "execute is invoked on s" is the proposition that s is a
  member of that list.
* `app/features/chat/router.py` — the server-sent-event assembly of
  `chat_stream` / `generate_stream`, with `ChatStreamChunk` from
  `app/models/endpoint_models.py`.
* `app/features/chat/chat_service/agent_run.py` together with
  `app/dependencies.py` — construction of the three agents and the binding
  of tool attributes, modelled as attribute lookup on the set of names the
  `AgentTools` class actually defines.
-/

/-! ## Session store (`app/features/sessions/session_manager.py`)

Message-history entries are opaque to the store, so the state is
polymorphic in the entry type `M`; a history value is a Python list,
hence `List M`. -/

/-- One value of the per-session dict created by `create_session`:
`{'created_at': …, 'last_activity': …, 'message_history': []}`. -/
structure SessionData (M : Type) where
  created_at : Int
  last_activity : Int
  message_history : List M
  deriving DecidableEq

/-- The `self.sessions` dict of `SessionManager`, insertion ordered. -/
abbrev SMState (M : Type) : Type := List (String × SessionData M)

/-- Python dict assignment `d[k] = v`: replace in place if the key is
present, append otherwise. -/
def dict_set {β : Type} (s : List (String × β)) (k : String) (v : β) :
    List (String × β) :=
  if s.any (fun p => p.1 == k) then
    s.map (fun p => if p.1 == k then (k, v) else p)
  else
    s ++ [(k, v)]

/-- `SessionManager.session_exists`: `session_id in self.sessions`. -/
def session_exists {M : Type} (s : SMState M) (sid : String) : Bool :=
  s.any (fun p => p.1 == sid)

/-- `SessionManager.create_session`.  The two separate `datetime.now()`
calls of the source are the two time arguments `t1` (for `created_at`)
and `t2` (for `last_activity`); the freshly drawn uuid is the argument
`sid`. -/
def create_session {M : Type} (s : SMState M) (sid : String) (t1 t2 : Int) :
    SMState M :=
  dict_set s sid ⟨t1, t2, []⟩

/-- `SessionManager.get_session`: `self.sessions.get(session_id)`. -/
def get_session {M : Type} (s : SMState M) (sid : String) :
    Option (SessionData M) :=
  (s.find? (fun p => p.1 == sid)).map (fun p => p.2)

/-- `SessionManager.update_session_activity`: sets `last_activity` to the
current time `t` when the session exists; returns the Bool result paired
with the new state. -/
def update_session_activity {M : Type} (s : SMState M) (sid : String)
    (t : Int) : Bool × SMState M :=
  if session_exists s sid then
    (true, s.map (fun p =>
      if p.1 == sid then (p.1, { p.2 with last_activity := t }) else p))
  else
    (false, s)

/-- `SessionManager.update_session_history`: overwrites
`message_history` wholesale when the session exists. -/
def update_session_history {M : Type} (s : SMState M) (sid : String)
    (hist : List M) : Bool × SMState M :=
  if session_exists s sid then
    (true, s.map (fun p =>
      if p.1 == sid then (p.1, { p.2 with message_history := hist }) else p))
  else
    (false, s)

/-- `SessionManager.get_session_history`: returns the stored history when
the session exists, `None` otherwise. -/
def get_session_history {M : Type} (s : SMState M) (sid : String) :
    Option (List M) :=
  (get_session s sid).map (fun d => d.message_history)

/-- `SessionManager.cleanup_old_sessions`.  The source computes
`cutoff_time = datetime.now() - timedelta(hours=self.session_timeout_hours)`,
collects every session with `last_activity < cutoff_time`, deletes them,
and returns how many were deleted.  `now` is the `datetime.now()` value
and `timeout` the configured `session_timeout_hours` on the same integer
time scale. -/
def cleanup_old_sessions {M : Type} (s : SMState M) (now timeout : Int) :
    Nat × SMState M :=
  let cutoff := now - timeout
  let expired := s.filter (fun p => decide (p.2.last_activity < cutoff))
  (expired.length, s.filter (fun p => !decide (p.2.last_activity < cutoff)))

/-- States of the session store reachable from the empty store by the four
mutating operations, under a monotone wall clock: `Reachable c s` means
the store holds `s` and every `datetime.now()` drawn so far was at most
`c`.  Each constructor records the clock values the corresponding Python
operation draws, in source order, with the monotonicity side conditions. -/
inductive Reachable {M : Type} : Int → SMState M → Prop where
  | init (c : Int) : Reachable c []
  | create {c : Int} {s : SMState M} (sid : String) {t1 t2 : Int} :
      Reachable c s → c ≤ t1 → t1 ≤ t2 →
      Reachable t2 (create_session s sid t1 t2)
  | touch {c : Int} {s : SMState M} (sid : String) {t : Int} :
      Reachable c s → c ≤ t →
      Reachable t (update_session_activity s sid t).2
  | set_history {c : Int} {s : SMState M} (sid : String) (hist : List M) :
      Reachable c s →
      Reachable c (update_session_history s sid hist).2
  | sweep {c : Int} {s : SMState M} (timeout : Int) {now : Int} :
      Reachable c s → c ≤ now →
      Reachable now (cleanup_old_sessions s now timeout).2

/-! ## Tool registry (`app/features/chat/chat_service/agent_tools.py`)

Python exceptions are modelled as `Except String`; a `.error` value is an
exception propagating out of the modelled call, a returned pair carries
the normal result together with the new contents of the shared
`tool_calls_metadata` list of the `AgentTools` instance. -/

/-- Values appearing as tool arguments and results (a fragment of the
Python value universe sufficient for these tools). -/
inductive PyVal where
  | str (s : String)
  | int (n : Int)
  | rat (q : ℚ)
  | list (xs : List PyVal)

/-- One element of `tool_calls_metadata` (the `tool_metadata` dict built
by `log_tool_call` and by `query_outlets_table`; serialized as
`ToolMetadata` in `app/models/endpoint_models.py`).  `generated_sql` is
`some` only on the paths of `query_outlets_table` that set it to the
translator output, `none` where the source sets it to `None` or omits
the key. -/
structure ToolRecord where
  tool_name : String
  tool_args : List PyVal
  tool_kwargs : List (String × PyVal)
  result : PyVal
  generated_sql : Option String

/-- The `log_tool_call` decorator (sync and async wrappers behave
identically): call the wrapped function; if it returns, append exactly
one metadata record and hand the result back; if it raises, the
exception propagates and the accumulator is left as it was — the wrapper
body has no `try`/`except`. -/
def log_tool_call (tool_name : String) (args : List PyVal)
    (kwargs : List (String × PyVal)) (f : Unit → Except String PyVal)
    (acc : List ToolRecord) : Except String PyVal × List ToolRecord :=
  match f () with
  | .error e => (.error e, acc)
  | .ok r => (.ok r, acc ++ [⟨tool_name, args, kwargs, r, none⟩])

/-- `AgentTools.get_and_clear_tool_metadata`: copy the list, clear it,
return the copy. -/
def get_and_clear_tool_metadata (acc : List ToolRecord) :
    List ToolRecord × List ToolRecord :=
  (acc, [])

/-- `self.tools.tool_calls_metadata.clear()` as performed at the start of
every `ChatAgent.chat` / `product_chat` / `outlet_chat` turn. -/
def clear_tool_metadata (_acc : List ToolRecord) : List ToolRecord :=
  []

/-- `self.tool_calls_metadata.append(tool_metadata)`. -/
def append_tool_metadata (acc : List ToolRecord) (r : ToolRecord) :
    List ToolRecord :=
  acc ++ [r]

/-- `AgentTools.get_products`: the wrapped body calls
`self.database.get_all_products()`, an external call that either returns
rows or raises; it is the opaque argument. -/
def get_products (db_get_all_products : Except String PyVal)
    (acc : List ToolRecord) : Except String PyVal × List ToolRecord :=
  log_tool_call "get_products" [] [] (fun _ => db_get_all_products) acc

/-- `AgentTools.addition_calculator`: `sum(numbers)`. -/
def addition_calculator (numbers : List Int) (acc : List ToolRecord) :
    Except String PyVal × List ToolRecord :=
  log_tool_call "addition_calculator" []
    [("numbers", .list (numbers.map .int))]
    (fun _ => .ok (.int numbers.sum)) acc

/-- `AgentTools.multiplication_calculator`: `num * multiplier`. -/
def multiplication_calculator (num multiplier : Int)
    (acc : List ToolRecord) : Except String PyVal × List ToolRecord :=
  log_tool_call "multiplication_calculator" []
    [("num", .int num), ("multiplier", .int multiplier)]
    (fun _ => .ok (.int (num * multiplier))) acc

/-- Python `str.strip()`: remove leading and trailing whitespace. -/
def py_strip (s : String) : String :=
  ⟨((s.data.dropWhile Char.isWhitespace).reverse.dropWhile
      Char.isWhitespace).reverse⟩

/-- Python `s.startswith(pre)`. -/
def py_startswith (s pre : String) : Bool :=
  pre.data.isPrefixOf s.data

/-! ## Storage engine boundary (`app/database.py`) -/

/-- One row of a SQL result, `dict(row._mapping)`: field names mapped to
(already serialized) cell values. -/
abbrev Row : Type := List (String × String)

/-- The `json.dumps([dict(row._mapping) for row in rows], indent=2)`
serialization of a row set (whitespace layout abstracted). -/
def json_dumps (rows : List Row) : String :=
  "[" ++ String.intercalate ", "
    (rows.map (fun r =>
      "\x7b" ++ String.intercalate ", "
        (r.map (fun kv => "\"" ++ kv.1 ++ "\": \"" ++ kv.2 ++ "\"")) ++
      "\x7d")) ++ "]"

/-- `Database.execute_query` in the default `fetch=True`, no-params mode
used by the tool layer: the statement text is handed to
`session.execute(text(query))` unconditionally — there is no inspection
of the statement — and the engine either returns rows or raises.  The
second component is the list of statements that reached the storage
engine during the call. -/
def execute_query (engine_execute : String → Except String (List Row))
    (query : String) : Except String (List Row) × List String :=
  (engine_execute query, [query])

/-- Errors raised by `Database.search_similar_products`:
`dimension_mismatch got expected` is the
`ValueError("Query embedding dimension {got} does not match expected {expected}")`
raised by the validation step, `engine_fault` any error propagating from
the storage engine. -/
inductive DbError where
  | dimension_mismatch (got expected : Nat)
  | engine_fault (msg : String)
  deriving DecidableEq

/-- The `self.vector_dimension = 512` set in `Database.__init__`. -/
def vector_dimension : Nat := 512

/-- A nearest-neighbor search query as issued to the storage engine by
`Database.search_similar_products`: the embedding, the row limit and the
similarity threshold of the single `session.query(...)` call. -/
structure SearchQuery (α : Type) where
  embedding : List α
  limit : Nat
  threshold : ℚ

/-- `Database.search_similar_products`.  The source opens a session, then
validates `len(query_embedding) == self.vector_dimension`, raising the
dimension `ValueError` before any query is built; only after the check
does it issue the one cosine-similarity query.  The engine is the opaque
argument; the second component lists the search queries that were issued
to the engine during the call. -/
def search_similar_products {α : Type} (query_embedding : List α)
    (limit : Nat) (threshold : ℚ)
    (engine : List α → Nat → ℚ → List (Nat × String × ℚ)) :
    Except DbError (List (Nat × String × ℚ)) × List (SearchQuery α) :=
  if query_embedding.length ≠ vector_dimension then
    (.error (.dimension_mismatch query_embedding.length vector_dimension), [])
  else
    (.ok (engine query_embedding limit threshold),
     [⟨query_embedding, limit, threshold⟩])

/-- The message a `DbError` carries when it crosses the tool boundary as
a Python exception string. -/
def db_error_message : DbError → String
  | .dimension_mismatch got expected =>
      "Query embedding dimension " ++ toString got ++
      " does not match expected " ++ toString expected
  | .engine_fault msg => msg

/-- `AgentTools.get_similar_products`: the wrapped body first calls
`self.embedding_model.generate_embeddings(search_query)` (opaque
backend, may raise), then
`self.database.search_similar_products(query_embedding, threshold=0.4)`
with the default `limit=10`; either step raising propagates through the
`log_tool_call` wrapper. -/
def get_similar_products
    (generate_embeddings : String → Except String (List ℚ))
    (engine : List ℚ → Nat → ℚ → List (Nat × String × ℚ))
    (search_query : String) (acc : List ToolRecord) :
    Except String PyVal × List ToolRecord :=
  log_tool_call "get_similar_products" []
    [("search_query", .str search_query)]
    (fun _ => do
      let e ← generate_embeddings search_query
      match (search_similar_products e 10 (0.4 : ℚ) engine).1 with
      | .error err => Except.error (db_error_message err)
      | .ok rows =>
          Except.ok (.list (rows.map (fun t =>
            .list [.int t.1, .str t.2.1, .rat t.2.2]))))
    acc

/-- `AgentTools.query_outlets_table`.  The whole body sits in one
`try`/`except`: the translator call (`self.text_to_sql_agent.run`) is the
opaque `translator_output` (`.error` when `run` raises); if its output,
stripped, starts with `--` the tool refuses without touching the
database; otherwise the output is handed verbatim to
`Database.execute_query`.  Any raise is converted to
`"Error executing query: …"`.  Every path appends exactly one metadata
record.  Result components: the returned string, the new
`tool_calls_metadata`, and the statements that reached the storage
engine. -/
def query_outlets_table (translator_output : Except String String)
    (engine_execute : String → Except String (List Row))
    (nl_query : String) (acc : List ToolRecord) :
    String × List ToolRecord × List String :=
  match translator_output with
  | .error e =>
      let msg := "Error executing query: " ++ e
      (msg, acc ++ [⟨"query_outlets_table", [],
        [("nl_query", .str nl_query)], .str msg, none⟩], [])
  | .ok sql_query =>
      if py_startswith (py_strip sql_query) "--" then
        let r := "Cannot generate a safe query for this request."
        (r, acc ++ [⟨"query_outlets_table", [],
          [("nl_query", .str nl_query)], .str r, some sql_query⟩], [])
      else
        match execute_query engine_execute sql_query with
        | (.ok rows, issued) =>
            let r := json_dumps rows
            (r, acc ++ [⟨"query_outlets_table", [],
              [("nl_query", .str nl_query)], .str r, some sql_query⟩],
             issued)
        | (.error e, issued) =>
            let msg := "Error executing query: " ++ e
            (msg, acc ++ [⟨"query_outlets_table", [],
              [("nl_query", .str nl_query)], .str msg, none⟩], issued)

/-! ## Agent construction (`agent_run.py`, `dependencies.py`)

`app/dependencies.py` constructs the one long-lived
`ChatAgent(config.CHAT_MODEL_ID)` at import time; `ChatAgent.__init__`
builds three `Agent` profiles, each with a list of tool attributes read
from the single `AgentTools` instance.  Attribute lookup on that
instance is modelled over the set of attribute names the `AgentTools`
class and its `__init__` actually define. -/

/-- Every attribute an `AgentTools` instance has: the fields set in
`__init__` followed by the methods of the class body. -/
def agent_tools_attributes : List String :=
  ["database", "embedding_model", "tool_calls_metadata", "model",
   "text_to_sql_agent",
   "get_and_clear_tool_metadata", "get_products", "get_similar_products",
   "addition_calculator", "multiplication_calculator",
   "query_outlets_table"]

/-- Python attribute lookup `self.tools.<name>`: the bound attribute on
success, `AttributeError` otherwise. -/
def getattr_agent_tools (name : String) : Except String String :=
  if agent_tools_attributes.contains name then .ok name
  else .error ("AttributeError: AgentTools object has no attribute " ++ name)

/-- Tool attributes requested for the `zus_coffee_assistant` agent, in
source order. -/
def chat_agent_tool_names : List String :=
  ["addition_calculator", "multiplication_calculator", "get_products",
   "get_similar_products", "query_outlets_table"]

/-- Tool attributes requested for the `product_summary_agent`. -/
def product_summary_agent_tool_names : List String :=
  ["get_similar_products"]

/-- Tool attributes requested for the `outlet_query_agent` in
`ChatAgent.__init__`: the single entry `self.tools.execute_outlets_query`. -/
def outlet_query_agent_tool_names : List String :=
  ["execute_outlets_query"]

/-- The tool-binding part of `ChatAgent.__init__`: the three tool lists
are evaluated in source order, each entry by attribute lookup on the
`AgentTools` instance; the first failing lookup raises out of the
constructor. -/
def chat_agent_init_tool_bindings : Except String (List String) :=
  (chat_agent_tool_names ++ product_summary_agent_tool_names ++
    outlet_query_agent_tool_names).mapM getattr_agent_tools

/-! ## Streaming (`app/features/chat/router.py`,
`app/models/endpoint_models.py`) -/

/-- `ChatStreamChunk` from `app/models/endpoint_models.py`: every field
except `status` is optional and defaults to `None`. -/
structure ChatStreamChunk where
  chunk : Option String
  response : Option String
  session_id : Option String
  message_history : Option (List PyVal)
  status : String
  tool_calls : Option (List ToolRecord)

/-- One item yielded by the streaming generation process consumed by
`generate_stream`: either a dict with a `chunk` key or the final dict
with `response`, `message_history` and `tool_calls` keys. -/
inductive StreamItem where
  | chunk (text : String)
  | final (response : String) (message_history : List PyVal)
      (tool_calls : List ToolRecord)

/-- Modelled from the spec: `ChatAgent.chat_stream` is called by the
router but is absent from the source tree.  Following §4.5 and §6 of the
spec, the streaming generation yields its text deltas in production
order and then one terminal item whose full text is the accumulated
concatenation of the deltas, together with the updated history and the
tool-invocation list of the turn. -/
def chat_stream (deltas : List String) (message_history : List PyVal)
    (tool_calls : List ToolRecord) : List StreamItem :=
  deltas.map StreamItem.chunk ++
    [StreamItem.final (String.join deltas) message_history tool_calls]

/-- One server-sent event yielded by `generate_stream`: a `data:` line
carrying a serialized `ChatStreamChunk`, or the final `data: [DONE]`
marker. -/
inductive StreamEvent where
  | data (c : ChatStreamChunk)
  | done

/-- `generate_stream` of the `/chat-stream` endpoint, non-error path:
each item with a `chunk` key becomes a streaming `ChatStreamChunk`
event, the item with a `response` key becomes the complete
`ChatStreamChunk` event, and after the loop the `[DONE]` marker is
yielded.  Nothing is yielded before the loop. -/
def generate_stream (session_id : String) (items : List StreamItem) :
    List StreamEvent :=
  (items.map (fun it =>
    match it with
    | .chunk t =>
        StreamEvent.data ⟨some t, none, some session_id, none,
          "streaming", none⟩
    | .final r h tc =>
        StreamEvent.data ⟨none, some r, some session_id, some h,
          "complete", some tc⟩)) ++ [StreamEvent.done]

/-- A bare session-identifier event in the sense of the specification
claim: an event that carries the session identifier but neither delta
text nor a terminal payload. -/
def is_bare_session_event (e : StreamEvent) : Bool :=
  match e with
  | .data c => c.chunk.isNone && c.response.isNone && c.session_id.isSome
  | .done => false

/-! ## Shared accumulator across concurrent turns (`agent_run.py`,
`agent_tools.py`, `dependencies.py`)

`AgentTools.__init__` stores `tool_calls_metadata` as a field of the one
`AgentTools` instance owned by the one process-wide `ChatAgent`;
`ChatAgent.chat` clears that field at the start of a turn, the tools
append to it during the turn, and `get_and_clear_tool_metadata` drains
it at the end of the turn.  Two turns awaiting the inference backend on
the same event loop interleave at their `await` points, all acting on
the same field; `interleaved_shared_trace` is the interleaving in which
turn B starts after turn A has recorded a tool call and both turns then
drain.  The result is (drained list of turn A, drained list of turn B). -/
def interleaved_shared_trace (rA rB : ToolRecord) :
    List ToolRecord × List ToolRecord :=
  let acc0 : List ToolRecord := []
  let acc1 := clear_tool_metadata acc0
  let acc2 := append_tool_metadata acc1 rA
  let acc3 := clear_tool_metadata acc2
  let acc4 := append_tool_metadata acc3 rB
  let dA := get_and_clear_tool_metadata acc4
  let dB := get_and_clear_tool_metadata dA.2
  (dA.1, dB.1)

/-! ## Claim theorems -/

/-- C1: the claim says a deterministic check in the orchestration layer
rejects, before execution, any translator output that after trimming
neither starts with the refusal marker nor is a read-only SELECT
statement, so that the storage engine only ever executes read-only
statements.  The code only tests `sql_query.strip().startswith('--')`:
when the translator emits `DELETE FROM outlet;` — which neither starts
with the refusal marker nor with SELECT — the statement is handed to
`Database.execute_query` and reaches the storage engine. -/
theorem c1_nonread_statement_reaches_engine :
    (query_outlets_table (.ok "DELETE FROM outlet;") (fun _ => .ok [])
      "Delete all outlets." []).2.2 = ["DELETE FROM outlet;"] ∧
    py_startswith (py_strip "DELETE FROM outlet;") "--" = false ∧
    py_startswith (py_strip "DELETE FROM outlet;") "SELECT" = false := by
  refine ⟨rfl, by decide, by decide⟩

/-- C2 counterexample: a `get_products` call whose underlying database
operation raises appends no `ToolInvocationRecord` and lets the
exception propagate past the tool boundary — the `log_tool_call`
wrapper has no error handling, contradicting the claim that every tool
invocation, raising or not, yields exactly one record with an error
string. -/
theorem c2_decorated_tool_drops_record_on_raise :
    get_products (Except.error "database connection refused") [] =
      (Except.error "database connection refused", ([] : List ToolRecord)) :=
  rfl

/-- C3: the claim says each orchestration turn owns an isolated
tool-invocation accumulator, so concurrent turns on the same agent
instance never see each other.  In the code the accumulator is the
single `tool_calls_metadata` field of the one long-lived `AgentTools`
instance: in the interleaving where turn B clears the shared field after
turn A has recorded `rA`, turn A drains exactly turn B record `rB` and
turn B drains nothing — cross-talk and record loss. -/
theorem c3_shared_accumulator_cross_talk (rA rB : ToolRecord) :
    interleaved_shared_trace rA rB = ([rB], []) :=
  rfl

/-- C4: the claim says the outlet-query agent is constructed at startup
bound to the SQL tool and the entry point completes.  In
`ChatAgent.__init__` the outlet agent tool list reads
`self.tools.execute_outlets_query`, an attribute `AgentTools` never
defines, so construction — performed at import time by
`app/dependencies.py` — raises `AttributeError` and no outlet-query
entry point ever becomes operational. -/
theorem c4_outlet_agent_construction_fails :
    chat_agent_init_tool_bindings =
      .error
        "AttributeError: AgentTools object has no attribute execute_outlets_query" :=
  rfl

/-- C2 amended: `query_outlets_table` appends exactly one record on every
path and, when the translator call raises or the execution raises, it
returns the descriptive string `"Error executing query: …"` — also held
in the appended record as its result — instead of propagating; the four
decorated tools append exactly one record when the underlying operation
returns, but when it raises the `log_tool_call` wrapper appends no
record and lets the exception propagate. -/
theorem c2_record_discipline :
    (∀ (t : Except String String)
        (engine : String → Except String (List Row))
        (nl : String) (acc : List ToolRecord),
      ∃ rec, (query_outlets_table t engine nl acc).2.1 = acc ++ [rec])
    ∧ (∀ (engine : String → Except String (List Row))
          (nl : String) (acc : List ToolRecord) (msg : String),
        query_outlets_table (.error msg) engine nl acc =
          ("Error executing query: " ++ msg,
           acc ++ [⟨"query_outlets_table", [], [("nl_query", .str nl)],
             .str ("Error executing query: " ++ msg), none⟩],
           []))
    ∧ (∀ (sql : String) (engine : String → Except String (List Row))
          (nl : String) (acc : List ToolRecord) (msg : String),
        py_startswith (py_strip sql) "--" = false →
        engine sql = .error msg →
        query_outlets_table (.ok sql) engine nl acc =
          ("Error executing query: " ++ msg,
           acc ++ [⟨"query_outlets_table", [], [("nl_query", .str nl)],
             .str ("Error executing query: " ++ msg), none⟩],
           [sql]))
    ∧ (∀ (name : String) (args : List PyVal)
          (kwargs : List (String × PyVal))
          (f : Unit → Except String PyVal) (acc : List ToolRecord)
          (r : PyVal), f () = .ok r →
        log_tool_call name args kwargs f acc =
          (.ok r, acc ++ [⟨name, args, kwargs, r, none⟩]))
    ∧ (∀ (name : String) (args : List PyVal)
          (kwargs : List (String × PyVal))
          (f : Unit → Except String PyVal) (acc : List ToolRecord)
          (msg : String), f () = .error msg →
        log_tool_call name args kwargs f acc = (.error msg, acc)) := by
  refine ⟨?_, ?_, ?_, ?_, ?_⟩
  · intro t engine nl acc
    cases t with
    | error msg => exact ⟨_, rfl⟩
    | ok sql =>
        unfold query_outlets_table
        by_cases h : py_startswith (py_strip sql) "--"
        · simp only [h, if_true]
          exact ⟨_, rfl⟩
        · simp only [h, if_false]
          cases hq : engine sql with
          | ok rows =>
              simp only [execute_query, hq]
              exact ⟨_, rfl⟩
          | error msg =>
              simp only [execute_query, hq]
              exact ⟨_, rfl⟩
  · intro engine nl acc msg
    rfl
  · intro sql engine nl acc msg h1 h2
    unfold query_outlets_table
    simp only [h1, Bool.false_eq_true, if_false, execute_query, h2]
  · intro name args kwargs f acc r h
    simp [log_tool_call, h]
  · intro name args kwargs f acc msg h
    simp [log_tool_call, h]

/-- C2 witness: the record discipline at concrete inputs — one record for
a successful SQL turn, the full error result for a raising translator,
the full error result for a raising engine (statement issued, error
string returned and recorded), one record for a successful decorated
call, and propagation with no record for a raising decorated call. -/
theorem c2_record_discipline_witness :
    (∃ rec, (query_outlets_table (.ok "SELECT * FROM outlet;")
        (fun _ => .ok []) "Show all outlets" []).2.1 = [] ++ [rec])
    ∧ query_outlets_table (.error "boom") (fun _ => .ok []) "q" [] =
        ("Error executing query: " ++ "boom",
         [] ++ [⟨"query_outlets_table", [], [("nl_query", .str "q")],
           .str ("Error executing query: " ++ "boom"), none⟩],
         [])
    ∧ query_outlets_table (.ok "SELECT * FROM outlet;")
        (fun _ => .error "connection lost") "Show all outlets" [] =
        ("Error executing query: " ++ "connection lost",
         [] ++ [⟨"query_outlets_table", [],
           [("nl_query", .str "Show all outlets")],
           .str ("Error executing query: " ++ "connection lost"), none⟩],
         ["SELECT * FROM outlet;"])
    ∧ log_tool_call "get_products" [] [] (fun _ => .ok (.int 0)) [] =
        (.ok (.int 0), [] ++ [⟨"get_products", [], [], .int 0, none⟩])
    ∧ log_tool_call "get_products" [] [] (fun _ => .error "db down") [] =
        (.error "db down", []) :=
  ⟨c2_record_discipline.1 _ _ _ _,
   c2_record_discipline.2.1 _ _ _ _,
   c2_record_discipline.2.2.1 _ _ _ _ _ (by decide) rfl,
   c2_record_discipline.2.2.2.1 _ _ _ _ _ _ rfl,
   c2_record_discipline.2.2.2.2 _ _ _ _ _ _ rfl⟩

/-- C5 counterexample: the claim says the first emitted event of a
streamed turn is a session-identifier event; for the turn producing
deltas `["Hel", "lo"]` the first event the router yields is already the
text-delta event carrying `"Hel"` — no bare session-identifier event is
ever emitted. -/
theorem c5_no_leading_session_event :
    (generate_stream "s1" (chat_stream ["Hel", "lo"] [] [])).head? =
      some (StreamEvent.data
        ⟨some "Hel", none, some "s1", none, "streaming", none⟩)
    ∧ is_bare_session_event (StreamEvent.data
        ⟨some "Hel", none, some "s1", none, "streaming", none⟩) = false :=
  ⟨rfl, rfl⟩

/-- C5 amended: for every streamed turn the emitted sequence is exactly
the text-delta events in backend production order (each tagged with the
session identifier and status `streaming`), then exactly one terminal
event carrying the full text, the updated history and the
tool-invocation list, then the `[DONE]` marker; the terminal text is the
concatenation of the deltas.  No separate session-identifier event
precedes the deltas. -/
theorem c5_stream_shape (session_id : String) (deltas : List String)
    (history : List PyVal) (tool_calls : List ToolRecord) :
    generate_stream session_id (chat_stream deltas history tool_calls) =
      deltas.map (fun t => StreamEvent.data
        ⟨some t, none, some session_id, none, "streaming", none⟩)
      ++ [StreamEvent.data
            ⟨none, some (String.join deltas), some session_id,
             some history, "complete", some tool_calls⟩,
          StreamEvent.done] := by
  simp [generate_stream, chat_stream, List.map_append, List.map_map,
    Function.comp]

/-- C6 counterexample: on the refusal marker the tool returns the string
`"Cannot generate a safe query for this request."` (capital C, trailing
period), not the string `"cannot generate a safe query for this
request"` quoted by the claim. -/
theorem c6_refusal_string_differs :
    (query_outlets_table
      (.ok "-- Cannot generate a safe query for this request.")
      (fun _ => .ok []) "Delete all outlets." []).1 ≠
    "cannot generate a safe query for this request" := by
  decide

/-- C6 amended: if the translator output, stripped, begins with the
refusal marker, `query_outlets_table` returns the user-facing string
`"Cannot generate a safe query for this request."` and no statement
reaches the storage engine; if the translator emits a statement
beginning with SELECT (hence not the refusal marker), that statement is
passed verbatim to execute and the serialized rows are returned. -/
theorem c6_refusal_skips_execution_select_runs (out : String)
    (engine : String → Except String (List Row)) (nl : String)
    (acc : List ToolRecord) :
    (py_startswith (py_strip out) "--" = true →
      (query_outlets_table (.ok out) engine nl acc).1 =
        "Cannot generate a safe query for this request."
      ∧ (query_outlets_table (.ok out) engine nl acc).2.2 = [])
    ∧ (∀ rows, py_startswith out "SELECT" = true →
        py_startswith (py_strip out) "--" = false →
        engine out = .ok rows →
        (query_outlets_table (.ok out) engine nl acc).2.2 = [out]
        ∧ (query_outlets_table (.ok out) engine nl acc).1 =
            json_dumps rows) := by
  constructor
  · intro h
    constructor <;> simp [query_outlets_table, h]
  · intro rows _ h2 h3
    constructor <;> simp [query_outlets_table, execute_query, h2, h3]

/-- C6 witness: the refusal branch at the literal refusal marker skips
execution, and the SELECT branch at `SELECT * FROM outlet;` reaches the
engine and returns the serialized row set. -/
theorem c6_refusal_skips_execution_select_runs_witness :
    ((query_outlets_table
        (.ok "-- Cannot generate a safe query for this request.")
        (fun _ => .ok []) "Delete all outlets." []).1 =
      "Cannot generate a safe query for this request."
     ∧ (query_outlets_table
        (.ok "-- Cannot generate a safe query for this request.")
        (fun _ => .ok []) "Delete all outlets." []).2.2 = [])
    ∧ ((query_outlets_table (.ok "SELECT * FROM outlet;")
        (fun _ => .ok [[("id", "1"), ("name", "SS2 Outlet")]])
        "Show all outlets" []).2.2 = ["SELECT * FROM outlet;"]
       ∧ (query_outlets_table (.ok "SELECT * FROM outlet;")
        (fun _ => .ok [[("id", "1"), ("name", "SS2 Outlet")]])
        "Show all outlets" []).1 =
          json_dumps [[("id", "1"), ("name", "SS2 Outlet")]]) :=
  ⟨(c6_refusal_skips_execution_select_runs _ _ _ _).1 (by decide),
   (c6_refusal_skips_execution_select_runs _ _ _ _).2 _ (by decide)
     (by decide) rfl⟩

/-- Helper: a list splits into the elements satisfying a predicate and
those refuting it. -/
theorem length_filter_partition {α : Type} (p : α → Bool) (l : List α) :
    (l.filter p).length + (l.filter (fun a => !p a)).length = l.length :=
  (List.length_eq_length_filter_add p).symm

/-- C7 counterexample: with the store holding one session whose
`last_activity` equals the current instant, a sweep with timeout `0`
removes nothing — the claim says a zero timeout removes every session
regardless of recency. -/
theorem c7_sweep_zero_keeps_current_session :
    cleanup_old_sessions [("s1", (⟨5, 5, []⟩ : SessionData Nat))] 5 0 =
      (0, [("s1", (⟨5, 5, []⟩ : SessionData Nat))]) := by
  decide

/-- C7 amended: `sweep` removes exactly the sessions whose last-activity
is strictly older than now minus the timeout, leaves every other session
untouched, and returns the number removed; with timeout `0` it removes
exactly the sessions whose last-activity is strictly before the current
instant (one touched at the current instant survives); and any timeout
no smaller than the age of the oldest activity removes none. -/
theorem c7_sweep_characterization {M : Type} (s : SMState M)
    (now timeout : Int) :
    (∀ (sid : String) (d : SessionData M),
        (sid, d) ∈ (cleanup_old_sessions s now timeout).2 ↔
          ((sid, d) ∈ s ∧ ¬ d.last_activity < now - timeout))
    ∧ (cleanup_old_sessions s now timeout).1 +
        (cleanup_old_sessions s now timeout).2.length = s.length
    ∧ (∀ (sid : String) (d : SessionData M),
        (sid, d) ∈ (cleanup_old_sessions s now 0).2 ↔
          ((sid, d) ∈ s ∧ now ≤ d.last_activity))
    ∧ ((∀ p ∈ s, now - timeout ≤ p.2.last_activity) →
        cleanup_old_sessions s now timeout = (0, s)) := by
  refine ⟨?_, ?_, ?_, ?_⟩
  · intro sid d
    simp [cleanup_old_sessions, List.mem_filter]
  · exact length_filter_partition _ s
  · intro sid d
    simp [cleanup_old_sessions, List.mem_filter, not_lt]
  · intro h
    have h1 : s.filter
        (fun p => decide (p.2.last_activity < now - timeout)) = [] := by
      rw [List.filter_eq_nil_iff]
      intro a ha
      simpa using not_lt.mpr (h a ha)
    have h2 : s.filter
        (fun p => !decide (p.2.last_activity < now - timeout)) = s := by
      rw [List.filter_eq_self]
      intro a ha
      simpa using not_lt.mpr (h a ha)
    simp [cleanup_old_sessions, h1, h2]

/-- C7 witness: on a store with activities 10 and 20 at time 25, the
sweep characterization applies; with timeout 30 the removes-none
hypothesis is satisfied and nothing is removed, and with timeout 10 the
recent session is kept. -/
theorem c7_sweep_characterization_witness :
    cleanup_old_sessions
        [("a", (⟨0, 10, []⟩ : SessionData Nat)), ("b", ⟨0, 20, []⟩)]
        25 30 =
      (0, [("a", (⟨0, 10, []⟩ : SessionData Nat)), ("b", ⟨0, 20, []⟩)])
    ∧ ("b", (⟨0, 20, []⟩ : SessionData Nat)) ∈
        (cleanup_old_sessions
          [("a", (⟨0, 10, []⟩ : SessionData Nat)), ("b", ⟨0, 20, []⟩)]
          25 10).2 :=
  ⟨(c7_sweep_characterization _ 25 30).2.2.2 (by decide),
   ((c7_sweep_characterization _ 25 10).1 "b" ⟨0, 20, []⟩).mpr
     ⟨by decide, by decide⟩⟩

/-- C8: when the produced query embedding has a length other than the
catalog vector width 512, `search_similar_products` fails with the
dimension-mismatch error and issues no search query to the storage
engine — no partial results. -/
theorem c8_dimension_mismatch_no_query {α : Type} (emb : List α)
    (limit : Nat) (threshold : ℚ)
    (engine : List α → Nat → ℚ → List (Nat × String × ℚ))
    (h : emb.length ≠ 512) :
    search_similar_products emb limit threshold engine =
      (.error (.dimension_mismatch emb.length 512), []) := by
  unfold search_similar_products vector_dimension
  rw [if_pos h]

/-- C8 witness: a 3-dimensional embedding makes the search fail with
`dimension_mismatch 3 512` before any query is issued. -/
theorem c8_dimension_mismatch_no_query_witness :
    search_similar_products [(0 : Int), 1, 2] 10 (0.4 : ℚ)
        (fun _ _ _ => []) =
      (.error (.dimension_mismatch 3 512), []) :=
  c8_dimension_mismatch_no_query [(0 : Int), 1, 2] 10 (0.4 : ℚ)
    (fun _ _ _ => []) (by decide)

/-- Helper: looking up a key after updating every entry with that key
rewrites the found entry pointwise. -/
theorem find?_map_update {M : Type} (s : SMState M) (sid : String)
    (f : SessionData M → SessionData M) :
    (s.map (fun p =>
      if p.1 == sid then (p.1, f p.2) else p)).find? (fun p => p.1 == sid)
    = (s.find? (fun p => p.1 == sid)).map (fun p => (p.1, f p.2)) := by
  induction s with
  | nil => rfl
  | cons hd tl ih =>
      cases h : hd.1 == sid with
      | true =>
          simp only [List.map_cons, h, if_true, List.find?_cons,
            Option.map_some]
          rfl
      | false =>
          simp only [List.map_cons, h, Bool.false_eq_true, if_false,
            List.find?_cons, ih]

/-- Helper: an existing key is found. -/
theorem find?_of_session_exists {M : Type} {s : SMState M} {sid : String}
    (h : session_exists s sid = true) :
    ∃ q, s.find? (fun p => p.1 == sid) = some q := by
  rw [← Option.isSome_iff_exists, List.find?_isSome]
  simpa [session_exists, List.any_eq_true] using h

/-- C9: when the session exists, `replace_history` returns true and an
immediately following `get_history` returns exactly the replaced value;
when it does not, `replace_history` returns false and the store is left
unchanged. -/
theorem c9_replace_history_roundtrip {M : Type} (s : SMState M)
    (sid : String) (hist : List M) :
    (session_exists s sid = true →
      (update_session_history s sid hist).1 = true
      ∧ get_session_history (update_session_history s sid hist).2 sid =
          some hist)
    ∧ (session_exists s sid = false →
      update_session_history s sid hist = (false, s)) := by
  constructor
  · intro h
    refine ⟨by simp [update_session_history, h], ?_⟩
    obtain ⟨q, hq⟩ := find?_of_session_exists h
    unfold get_session_history get_session update_session_history
    rw [if_pos h]
    rw [find?_map_update s sid
      (fun d => { d with message_history := hist }), hq]
    rfl
  · intro h
    simp [update_session_history, h]

/-- C9 witness: replacing the history of the present session `a` with
`[7]` succeeds and reads back exactly `[7]`; replacing the history of
the absent session `b` fails and leaves the store unchanged. -/
theorem c9_replace_history_roundtrip_witness :
    ((update_session_history [("a", (⟨0, 0, []⟩ : SessionData Nat))]
        "a" [7]).1 = true
     ∧ get_session_history
        (update_session_history [("a", (⟨0, 0, []⟩ : SessionData Nat))]
          "a" [7]).2 "a" = some [7])
    ∧ update_session_history [("a", (⟨0, 0, []⟩ : SessionData Nat))]
        "b" [7] = (false, [("a", ⟨0, 0, []⟩)]) :=
  ⟨(c9_replace_history_roundtrip _ "a" [7]).1 (by decide),
   (c9_replace_history_roundtrip _ "b" [7]).2 (by decide)⟩

/-- Helper: an entry of `dict_set s k v` is the assigned pair or an
original entry. -/
theorem mem_dict_set {β : Type} {s : List (String × β)} {k : String}
    {v : β} {x : String × β} (hx : x ∈ dict_set s k v) :
    x = (k, v) ∨ x ∈ s := by
  unfold dict_set at hx
  by_cases h : s.any (fun p => p.1 == k)
  · rw [if_pos h] at hx
    obtain ⟨q, hq, hqe⟩ := List.mem_map.mp hx
    by_cases h2 : (q.1 == k) = true
    · left
      rw [← hqe, if_pos h2]
    · right
      rw [← hqe, if_neg h2]
      exact hq
  · rw [if_neg h] at hx
    rcases List.mem_append.mp hx with h1 | h1
    · right
      exact h1
    · left
      simpa using h1

/-- Helper: the strengthened invariant carried through every reachable
state — each stored session has `created_at ≤ last_activity` and no
stored timestamp is ahead of the clock. -/
theorem reachable_bounds {M : Type} {c : Int} {s : SMState M}
    (h : Reachable c s) :
    ∀ p ∈ s, p.2.created_at ≤ p.2.last_activity ∧ p.2.last_activity ≤ c := by
  induction h with
  | init c =>
      intro p hp
      cases hp
  | create sid hr h1 h2 ih =>
      intro p hp
      rcases mem_dict_set hp with rfl | hp2
      · exact ⟨h2, le_refl _⟩
      · obtain ⟨hc, hl⟩ := ih p hp2
        exact ⟨hc, hl.trans (h1.trans h2)⟩
  | @touch c1 s1 sid t hr hct ih =>
      intro p hp
      unfold update_session_activity at hp
      by_cases hex : session_exists s1 sid
      · rw [if_pos hex] at hp
        obtain ⟨q, hq, hqe⟩ := List.mem_map.mp hp
        obtain ⟨hc, hl⟩ := ih q hq
        by_cases h2 : (q.1 == sid) = true
        · rw [← hqe, if_pos h2]
          exact ⟨hc.trans (hl.trans hct), le_refl _⟩
        · rw [← hqe, if_neg h2]
          exact ⟨hc, hl.trans hct⟩
      · rw [if_neg hex] at hp
        obtain ⟨hc, hl⟩ := ih p hp
        exact ⟨hc, hl.trans hct⟩
  | @set_history c1 s1 sid hist hr ih =>
      intro p hp
      unfold update_session_history at hp
      by_cases hex : session_exists s1 sid
      · rw [if_pos hex] at hp
        obtain ⟨q, hq, hqe⟩ := List.mem_map.mp hp
        obtain ⟨hc, hl⟩ := ih q hq
        by_cases h2 : (q.1 == sid) = true
        · rw [← hqe, if_pos h2]
          exact ⟨hc, hl⟩
        · rw [← hqe, if_neg h2]
          exact ⟨hc, hl⟩
      · rw [if_neg hex] at hp
        exact ih p hp
  | sweep timeout hr hcn ih =>
      intro p hp
      obtain ⟨hc, hl⟩ := ih p (List.mem_of_mem_filter hp)
      exact ⟨hc, hl.trans hcn⟩

/-- C10: in every session-store state reachable by any sequence of
`create_session`, `update_session_activity`, `update_session_history`
and `cleanup_old_sessions` operations under a monotone wall clock, every
stored session satisfies `created_at ≤ last_activity`. -/
theorem c10_created_le_last_activity {M : Type} {c : Int} {s : SMState M}
    (h : Reachable c s) :
    ∀ (sid : String) (d : SessionData M), (sid, d) ∈ s →
      d.created_at ≤ d.last_activity := by
  intro sid d hm
  exact (reachable_bounds h (sid, d) hm).1

/-- C10 witness: the state reached by creating session `a` at times 1, 2
and touching it at time 5 contains the entry with `created_at = 1`,
`last_activity = 5`, and the invariant instance holds there. -/
theorem c10_created_le_last_activity_witness :
    ("a", (⟨1, 5, []⟩ : SessionData Nat)) ∈
      (update_session_activity
        (create_session ([] : SMState Nat) "a" 1 2) "a" 5).2
    ∧ (1 : Int) ≤ 5 := by
  have hr : Reachable 5
      (update_session_activity
        (create_session ([] : SMState Nat) "a" 1 2) "a" 5).2 :=
    Reachable.touch "a"
      (Reachable.create "a" (Reachable.init 0) (by decide) (by decide))
      (by decide)
  exact ⟨by decide,
    c10_created_le_last_activity hr "a" ⟨1, 5, []⟩ (by decide)⟩
